import Mathlib

/-!
Verification of the eatbitz3D repository against its specification.

Part 1 embeds the equirectangular test-pattern renderer
(`src/ios_kiosk_app/generate_test_360_video.py`, function `generate_frame`)
as pure rational arithmetic.  The Python code computes with IEEE-754
doubles; the embedding idealises that arithmetic as exact arithmetic over
ℚ, with `np.pi` represented by the exact rational value of its double, so
every definition is executable and every predicate decidable.

Part 2 embeds the segmentation wrapper
(`src/remove_bg_pipeline/segment_api.py`).  The two external models and
the base64 decoder are parameters of the embedded functions; images and
masks are functions on pixel coordinates, and base64/PNG marshalling of
the returned images is elided (a returned image field carries the pixel
array the code would encode).
-/

namespace Video360

/-- The exact rational value of the IEEE-754 double `np.pi`
(3.141592653589793115997963…). -/
def npPi : ℚ := 884279719003555 / 281474976710656

/-- Python float modulo `a % b`: `a - b * floor(a / b)`, the remainder that
takes the sign of `b` (numpy uses the same convention). -/
def pymod (a b : ℚ) : ℚ := a - b * ⌊a / b⌋

/-- Python float floor division `a // b`, value-wise `⌊a / b⌋`. -/
def pyfloordiv (a b : ℚ) : ℤ := ⌊a / b⌋

/-- `astype(np.uint8)` on a nonnegative float: truncate to integer, wrap
modulo 256.  (Every cast in the renderer is applied to a nonnegative
value, where truncation toward zero is the floor.) -/
def toU8 (q : ℚ) : ℕ := (⌊q⌋).toNat % 256

/-- Line 9: `lon_offset = (frame_num / total_frames) * 2 * np.pi`. -/
def lon_offset (frame_num total_frames : ℕ) : ℚ :=
  ((frame_num : ℚ) / (total_frames : ℚ)) * 2 * npPi

/-- Line 20: `grid_spacing = np.deg2rad(30)`, i.e. `30 * (pi / 180)`. -/
def grid_spacing : ℚ := npPi * 30 / 180

/-- Line 12: `x = np.linspace(-np.pi, np.pi, width)`; column `i` holds
`-pi + 2*pi*i/(width-1)`. -/
def lon (width i : ℕ) : ℚ := -npPi + (2 * npPi) * (i : ℚ) / ((width : ℚ) - 1)

/-- Line 13: `y = np.linspace(np.pi/2, -np.pi/2, height)`; row `j` holds
`pi/2 - pi*j/(height-1)`. -/
def lat (height j : ℕ) : ℚ := npPi / 2 - npPi * (j : ℚ) / ((height : ℚ) - 1)

/-- Line 17: `lon_moved = (lon + lon_offset + np.pi) % (2 * np.pi) - np.pi`. -/
def lon_moved (frame_num total_frames width i : ℕ) : ℚ :=
  pymod (lon width i + lon_offset frame_num total_frames + npPi) (2 * npPi) - npPi

/-- Line 23: `lon_grid = (np.abs(lon_moved % grid_spacing) < 0.015)`. -/
def lon_grid (a : ℚ) : Bool := decide (|pymod a grid_spacing| < (15 : ℚ) / 1000)

/-- Line 24: `lat_grid = (np.abs(lat % grid_spacing) < 0.015)`. -/
def lat_grid (b : ℚ) : Bool := decide (|pymod b grid_spacing| < (15 : ℚ) / 1000)

/-- Line 27: `checker = ((lon_moved // grid_spacing) % 2 == (lat // grid_spacing) % 2)`.
Python `% 2` on the float floor quotient yields 0 or 1 with the sign of the
divisor, which is `Int.emod` here. -/
def checker (a b : ℚ) : Bool :=
  decide (pyfloordiv a grid_spacing % 2 = pyfloordiv b grid_spacing % 2)

/-- An RGB pixel of the `uint8` image array. -/
structure RGB where
  r : ℕ
  g : ℕ
  b : ℕ
  deriving DecidableEq, Repr

/-- Line 34: red channel `((lon_moved + pi) / (2*pi) * 150 + 50).astype(uint8)`. -/
def baseR (a : ℚ) : ℕ := toU8 ((a + npPi) / (2 * npPi) * 150 + 50)

/-- Line 35: green channel `((lat + pi/2) / pi * 150 + 50).astype(uint8)`. -/
def baseG (b : ℚ) : ℕ := toU8 ((b + npPi / 2) / npPi * 150 + 50)

/-- Lines 34-36: the base color of a pixel with moved longitude `a` and
latitude `b`; the blue channel is the constant 100. -/
def base_color (a b : ℚ) : RGB := ⟨baseR a, baseG b, 100⟩

/-- Line 39: checkerboard darkening `(c * 0.7).astype(np.uint8)` of one
channel.  `0.7` is idealised as `7/10` (for every `uint8` input the double
product truncates to the same integer). -/
def darken (c : ℕ) : ℕ := toU8 ((c : ℚ) * (7 / 10))

/-- Line 39 applied to a whole pixel. -/
def darken_rgb (c : RGB) : RGB := ⟨darken c.r, darken c.g, darken c.b⟩

/-- Lines 30-43 for one pixel at column `i`, row `j`: base color,
darkened where `checker` holds, overwritten with white where
`lon_grid ∨ lat_grid` holds. -/
def pixel (frame_num total_frames width height i j : ℕ) : RGB :=
  let a := lon_moved frame_num total_frames width i
  let b := lat height j
  let shaded := if checker a b then darken_rgb (base_color a b) else base_color a b
  if lon_grid a || lat_grid b then ⟨255, 255, 255⟩ else shaded

/-- Lines 30-43 of `generate_frame`: the composited raster (the
`height × width` array `img_data` after grid-line compositing, before the
PIL text overlay). -/
def generate_frame (frame_num total_frames width height : ℕ) : List (List RGB) :=
  (List.range height).map fun j =>
    (List.range width).map fun i => pixel frame_num total_frames width height i j

/-- Line 9 divides by `total_frames` before anything else, so a call with
`total_frames = 0` raises `ZeroDivisionError`; every other step of the
pixel math is total. -/
def generate_frame_checked (frame_num total_frames width height : ℕ) :
    Except String (List (List RGB)) :=
  if total_frames = 0 then .error ("ZeroDivisionError")
  else .ok (generate_frame frame_num total_frames width height)

/-- Lines 98-100: the driver loop of `main` renders frame 0, 1, … in
order, appending each rendered frame to the sequence written so far. -/
def driver_frames (total_frames width height : ℕ) : List (List (List RGB)) :=
  (List.range total_frames).foldl
    (fun acc i => acc ++ [generate_frame i total_frames width height]) []

example : pixel 0 1 9 9 5 2 = ⟨100, 113, 70⟩ := by
  norm_num [pixel, lon_moved, lon, lat, lon_offset, pymod, grid_spacing, npPi,
    checker, pyfloordiv, lon_grid, lat_grid, darken_rgb, darken, base_color,
    baseR, baseG, toU8, abs_of_nonneg, Int.toNat]
example : checker (lon_moved 0 1 9 5) (lat 9 2) = true := by
  norm_num [checker, pyfloordiv, lon_moved, lon, lat, lon_offset, pymod,
    grid_spacing, npPi]
example : lon_grid (lon_moved 0 1 9 5) = false := by
  norm_num [lon_grid, lon_moved, lon, lon_offset, pymod, grid_spacing, npPi,
    abs_of_nonneg]
example : lat_grid (lat 2 0) = true := by
  norm_num [lat_grid, lat, pymod, grid_spacing, npPi]

end Video360

namespace SegmentAPI

/-- An RGB pixel of the decoded input image. -/
structure RGB where
  r : ℕ
  g : ℕ
  b : ℕ
  deriving DecidableEq

/-- An RGBA pixel of the `masked_rgba` output array. -/
structure RGBA where
  r : ℕ
  g : ℕ
  b : ℕ
  a : ℕ
  deriving DecidableEq

/-- A decoded image: dimensions and a pixel array indexed (row, column). -/
structure Img where
  h : ℕ
  w : ℕ
  px : ℕ → ℕ → RGB

/-- A detection box `[x1, y1, x2, y2]`. -/
def Box : Type := ℚ × ℚ × ℚ × ℚ

/-- A segmentation mask: a boolean per (row, column). -/
def Mask : Type := ℕ → ℕ → Bool

/-- The output of `post_process_grounded_object_detection` (lines 64-72):
parallel lists of boxes, scores and text labels. -/
structure Detections where
  boxes : List Box
  scores : List ℚ
  labels : List String

/-- Lines 51-53: append a trailing dot when missing, then lowercase. -/
def format_prompt (p : String) : String :=
  (if p.endsWith (".") then p else p ++ (".")).toLower

/-- The response of `segment_objects_internal`: `masked_rgba` is `none`
when the `masked_image_base64` key is absent from the returned dict, and
`some` of the pixel array the code PNG-encodes when it is present;
likewise `visualization_present` records whether `visualization_base64`
is a key of the returned dict. -/
structure InternalResult where
  num_objects : ℕ
  boxes : List Box
  scores : List ℚ
  labels : List String
  masked_rgba : Option (ℕ → ℕ → RGBA)
  visualization_present : Bool

/-- Lines 31-138, `segment_objects_internal`, with the two external
models as parameters: `detector` stands for the Grounding DINO steps
(lines 55-72) and `predictor` for the SAM2 per-box prediction (lines
74-84).  `masks_list` is the detector boxes mapped through the
predictor; when it is nonempty the cutout is built from its first mask
only (lines 95-111), and the visualization is attached when requested
(lines 113-136). -/
def segment_objects_internal (detector : Img → String → ℚ → Detections)
    (predictor : Img → Box → Mask) (img : Img) (text_prompt : String)
    (box_threshold : ℚ) (return_visualization : Bool) : InternalResult :=
  let dets := detector img (format_prompt text_prompt) box_threshold
  let masks_list := dets.boxes.map (predictor img)
  match masks_list with
  | [] =>
      { num_objects := 0, boxes := dets.boxes, scores := dets.scores,
        labels := dets.labels, masked_rgba := none,
        visualization_present := false }
  | combined_mask :: rest =>
      let masked_rgba : ℕ → ℕ → RGBA := fun y x =>
        if combined_mask y x then
          ⟨(img.px y x).r, (img.px y x).g, (img.px y x).b, 255⟩
        else ⟨0, 0, 0, 0⟩
      { num_objects := (combined_mask :: rest).length, boxes := dets.boxes,
        scores := dets.scores, labels := dets.labels,
        masked_rgba := some masked_rgba,
        visualization_present := return_visualization }

/-- The parsed JSON request body: each field is `none` when its key is
absent. -/
structure SegRequest where
  image_base64 : Option String
  prompt : Option String
  threshold : Option ℚ

/-- What the endpoint returns: either an error object paired with an
HTTP status code, or the success payload. -/
inductive SegResponse where
  | err : String → ℕ → SegResponse
  | ok : InternalResult → SegResponse

/-- Lines 141-185, the `segment` endpoint: validate the two required
keys in order, decode the image (`decode` stands for `base64.b64decode`
plus `Image.open`; a failure there is caught by the broad handler and
surfaced with status 500), then run the core function with the
requested or default threshold. -/
def segment (decode : String → Except String Img)
    (detector : Img → String → ℚ → Detections) (predictor : Img → Box → Mask)
    (data : SegRequest) : SegResponse :=
  match data.image_base64 with
  | none => .err ("Missing 'image_base64' field") 400
  | some ib =>
    match data.prompt with
    | none => .err ("Missing 'prompt' field") 400
    | some p =>
      match decode ib with
      | .error e => .err e 500
      | .ok img =>
          .ok (segment_objects_internal detector predictor img p
            (data.threshold.getD (3 / 10)) true)

/-- A detector that finds nothing, for concrete witnesses. -/
def noDetector : Img → String → ℚ → Detections := fun _ _ _ => ⟨[], [], []⟩

/-- A predictor whose masks are empty, for concrete witnesses. -/
def noPredictor : Img → Box → Mask := fun _ _ _ _ => false

/-- A decoder that always succeeds with a 1×1 black image, for concrete
witnesses. -/
def okDecode : String → Except String Img :=
  fun _ => .ok ⟨1, 1, fun _ _ => ⟨0, 0, 0⟩⟩

/-- A detector reporting two boxes, for concrete witnesses. -/
def twoBoxDetector : Img → String → ℚ → Detections :=
  fun _ _ _ => ⟨[(0, 0, 1, 1), (0, 0, 2, 2)], [9 / 10, 1 / 2], [("a"), ("b")]⟩

/-- A predictor whose mask is everywhere-true exactly for the box whose
last coordinate is 2, for concrete witnesses. -/
def lastCoordPredictor : Img → Box → Mask :=
  fun _ box _ _ => decide (box.2.2.2 = 2)

end SegmentAPI

namespace Video360

lemma toU8_le (q : ℚ) : toU8 q ≤ 255 :=
  Nat.le_of_lt_succ (Nat.mod_lt _ (by norm_num))

lemma pixel_channels_le (f t w h i j : ℕ) :
    (pixel f t w h i j).r ≤ 255 ∧ (pixel f t w h i j).g ≤ 255 ∧
    (pixel f t w h i j).b ≤ 255 := by
  unfold pixel
  dsimp only
  split
  · exact ⟨by norm_num, by norm_num, by norm_num⟩
  · split
    · exact ⟨toU8_le _, toU8_le _, toU8_le _⟩
    · exact ⟨toU8_le _, toU8_le _, by norm_num [base_color]⟩

/-- C1: for every valid input (positive totalFrames, width and height,
any frameIndex), the composited raster of `generate_frame` has exactly
`height` rows of exactly `width` pixels each, and every channel of every
pixel lies in [0, 255] (channels are `ℕ`, so 0 is a lower bound by
type). -/
theorem generate_frame_dims_range (f t w h : ℕ)
    (_ht : 0 < t) (_hw : 0 < w) (_hh : 0 < h) :
    (generate_frame f t w h).length = h ∧
    (∀ row ∈ generate_frame f t w h, row.length = w) ∧
    (∀ row ∈ generate_frame f t w h, ∀ p ∈ row,
      p.r ≤ 255 ∧ p.g ≤ 255 ∧ p.b ≤ 255) := by
  refine ⟨by simp [generate_frame], ?_, ?_⟩
  · intro row hrow
    simp only [generate_frame, List.mem_map, List.mem_range] at hrow
    obtain ⟨j, _, rfl⟩ := hrow
    simp
  · intro row hrow p hp
    simp only [generate_frame, List.mem_map, List.mem_range] at hrow
    obtain ⟨j, _, rfl⟩ := hrow
    simp only [List.mem_map, List.mem_range] at hp
    obtain ⟨i, _, rfl⟩ := hp
    exact pixel_channels_le f t w h i j

/-- Witness for C1 at the concrete input (0, 1, 2, 2). -/
theorem generate_frame_dims_range_witness :
    (generate_frame 0 1 2 2).length = 2 :=
  (generate_frame_dims_range 0 1 2 2 (by norm_num) (by norm_num)
    (by norm_num)).1

/-- C3: any pixel flagged by `lon_grid` or `lat_grid` composites to pure
white (255, 255, 255), whatever the base color and whether or not the
checker shading darkened it. -/
theorem grid_pixels_white (f t w h i j : ℕ)
    (hg : lon_grid (lon_moved f t w i) = true ∨ lat_grid (lat h j) = true) :
    pixel f t w h i j = ⟨255, 255, 255⟩ := by
  unfold pixel
  have hb : (lon_grid (lon_moved f t w i) || lat_grid (lat h j)) = true := by
    rcases hg with h1 | h1 <;> simp [h1]
  simp only [hb, if_true]

/-- Witness for C3 at frame 0 of 1, width 2, height 2, pixel (0, 0),
which lies on the latitude grid line at the north edge. -/
theorem grid_pixels_white_witness :
    pixel 0 1 2 2 0 0 = ⟨255, 255, 255⟩ :=
  grid_pixels_white 0 1 2 2 0 0
    (Or.inr (by norm_num [lat_grid, lat, pymod, grid_spacing, npPi]))

lemma pymod_add_right (a b : ℚ) (hb : b ≠ 0) : pymod (a + b) b = pymod a b := by
  unfold pymod
  rw [show (a + b) / b = a / b + 1 by field_simp, Int.floor_add_one]
  push_cast
  ring

/-- C5: rotation periodicity — with frameIndex = totalFrames the wrap of
`lon + offset` into [-π, π) lands every pixel on the same moved
longitude as frameIndex = 0, because the 2π offset is absorbed by the
wrap-around modulo. -/
theorem lon_moved_periodic (t w i : ℕ) (ht : 0 < t) :
    lon_moved t t w i = lon_moved 0 t w i := by
  unfold lon_moved
  have harg : lon w i + lon_offset t t + npPi =
      (lon w i + lon_offset 0 t + npPi) + 2 * npPi := by
    unfold lon_offset
    have htq : ((t : ℚ)) ≠ 0 := Nat.cast_ne_zero.mpr (Nat.pos_iff_ne_zero.mp ht)
    field_simp
    ring
  rw [harg, pymod_add_right _ _ (by norm_num [npPi])]

/-- Witness for C5 at totalFrames = 3, width = 2, column 0. -/
theorem lon_moved_periodic_witness :
    lon_moved 3 3 2 0 = lon_moved 0 3 2 0 :=
  lon_moved_periodic 3 2 0 (by norm_num)

lemma foldl_append_eq_map {α : Type} (g : ℕ → α) (l : List ℕ) (acc : List α) :
    l.foldl (fun a i => a ++ [g i]) acc = acc ++ l.map g := by
  induction l generalizing acc with
  | nil => simp
  | cons x xs ih => simp [ih]

/-- C6: determinism and statelessness — `generate_frame` is a pure
function (two invocations on identical inputs are the same raster), and
the driver loop's output at index `i` is exactly `generate_frame i`,
carrying no state from the frames rendered before it. -/
theorem generate_frame_deterministic (f t w h : ℕ) :
    generate_frame f t w h = generate_frame f t w h ∧
    (∀ i, i < t → (driver_frames t w h)[i]? =
      some (generate_frame i t w h)) := by
  refine ⟨rfl, fun i hi => ?_⟩
  unfold driver_frames
  rw [foldl_append_eq_map]
  simp [List.getElem?_map, List.getElem?_range hi]

/-- Witness for C6 at (0, 1, 1, 1), index 0 of the driver sequence. -/
theorem generate_frame_deterministic_witness :
    (driver_frames 1 1 1)[0]? = some (generate_frame 0 1 1 1) :=
  (generate_frame_deterministic 0 1 1 1).2 0 (by norm_num)

/-- C7: no input validation — `total_frames = 0` makes line 9 raise a
division error before any raster is built, and for every positive
`total_frames` the pixel math is total and returns the raster with no
other error path. -/
theorem generate_frame_zero_division (f w h : ℕ) :
    generate_frame_checked f 0 w h = .error ("ZeroDivisionError") ∧
    ∀ t, 0 < t → generate_frame_checked f t w h =
      .ok (generate_frame f t w h) := by
  refine ⟨rfl, fun t ht => ?_⟩
  unfold generate_frame_checked
  rw [if_neg (Nat.pos_iff_ne_zero.mp ht)]

/-- Witness for C7: the success branch at totalFrames = 1. -/
theorem generate_frame_zero_division_witness :
    generate_frame_checked 0 1 1 1 = .ok (generate_frame 0 1 1 1) :=
  (generate_frame_zero_division 0 1 1).2 1 (by norm_num)

/-- C2 counterexample: at frame 0 of 1, width = height = 9, pixel
(i, j) = (5, 2) the two floor parities are equal — the XOR of the claim
is false — yet the composited pixel is the darkened color, not the base
color. -/
theorem checker_xor_counterexample :
    pyfloordiv (lon_moved 0 1 9 5) grid_spacing % 2 =
      pyfloordiv (lat 9 2) grid_spacing % 2 ∧
    pixel 0 1 9 9 5 2 ≠ base_color (lon_moved 0 1 9 5) (lat 9 2) := by
  constructor
  · norm_num [pyfloordiv, lon_moved, lon, lat, lon_offset, pymod,
      grid_spacing, npPi]
  · have h1 : pixel 0 1 9 9 5 2 = ⟨100, 113, 70⟩ := by
      norm_num [pixel, lon_moved, lon, lat, lon_offset, pymod, grid_spacing,
        npPi, checker, pyfloordiv, lon_grid, lat_grid, darken_rgb, darken,
        base_color, baseR, baseG, toU8, abs_of_nonneg, Int.toNat]
    have h2 : base_color (lon_moved 0 1 9 5) (lat 9 2) = ⟨143, 162, 100⟩ := by
      norm_num [lon_moved, lon, lat, lon_offset, pymod, grid_spacing, npPi,
        base_color, baseR, baseG, toU8, Int.toNat]
    rw [h1, h2]
    decide

/-- C2 amended: away from the grid lines, a pixel is darkened exactly
when the parities of `floor(lon_moved / spacing)` and
`floor(lat / spacing)` are EQUAL (the checker condition is `==`, so a
true XOR keeps the base color and a false XOR darkens). -/
theorem checker_parity_eq (f t w h i j : ℕ)
    (ha : lon_grid (lon_moved f t w i) = false)
    (hb : lat_grid (lat h j) = false) :
    pixel f t w h i j =
      if pyfloordiv (lon_moved f t w i) grid_spacing % 2 =
          pyfloordiv (lat h j) grid_spacing % 2
      then darken_rgb (base_color (lon_moved f t w i) (lat h j))
      else base_color (lon_moved f t w i) (lat h j) := by
  unfold pixel
  dsimp only
  simp only [ha, hb, Bool.or_false, Bool.false_eq_true, if_false, checker,
    decide_eq_true_eq]

/-- Witness for C2 at the concrete pixel used in the counterexample. -/
theorem checker_parity_eq_witness :
    pixel 0 1 9 9 5 2 =
      if pyfloordiv (lon_moved 0 1 9 5) grid_spacing % 2 =
          pyfloordiv (lat 9 2) grid_spacing % 2
      then darken_rgb (base_color (lon_moved 0 1 9 5) (lat 9 2))
      else base_color (lon_moved 0 1 9 5) (lat 9 2) :=
  checker_parity_eq 0 1 9 9 5 2
    (by norm_num [lon_grid, lon_moved, lon, lon_offset, pymod, grid_spacing,
      npPi, abs_of_nonneg])
    (by norm_num [lat_grid, lat, pymod, grid_spacing, npPi, abs_of_nonneg])

lemma pymod_nonneg (a b : ℚ) (hb : 0 < b) : 0 ≤ pymod a b := by
  unfold pymod
  have h1 : (⌊a / b⌋ : ℚ) ≤ a / b := Int.floor_le _
  have hba : b * (a / b) = a := by field_simp
  nlinarith [mul_le_mul_of_nonneg_left h1 hb.le]

/-- C4 counterexample: at frame 582 of 1000, width 2, height 5, pixel
(i, j) = (0, 1) the moved longitude lies within 0.015 rad of the
multiple `1 * grid_spacing` (approached from below), yet neither flag is
set: the tolerance band of the code is one-sided. -/
theorem grid_flag_counterexample :
    |lon_moved 582 1000 2 0 - 1 * grid_spacing| < 15 / 1000 ∧
    (lon_grid (lon_moved 582 1000 2 0) || lat_grid (lat 5 1)) = false := by
  constructor
  · rw [abs_lt]
    constructor <;>
      norm_num [lon_moved, lon, lon_offset, pymod, grid_spacing, npPi]
  · have h1 : lon_grid (lon_moved 582 1000 2 0) = false := by
      norm_num [lon_grid, lon_moved, lon, lon_offset, pymod, grid_spacing,
        npPi, abs_of_nonneg]
    have h2 : lat_grid (lat 5 1) = false := by
      norm_num [lat_grid, lat, pymod, grid_spacing, npPi, abs_of_nonneg]
    rw [h1, h2]
    rfl

lemma band_iff (x : ℚ) :
    |pymod x grid_spacing| < 15 / 1000 ↔
    ∃ k : ℤ, (k : ℚ) * grid_spacing ≤ x ∧
      x < (k : ℚ) * grid_spacing + 15 / 1000 := by
  have hs : (0 : ℚ) < grid_spacing := by norm_num [grid_spacing, npPi]
  have htol : (15 : ℚ) / 1000 < grid_spacing := by norm_num [grid_spacing, npPi]
  constructor
  · intro hlt
    rw [abs_of_nonneg (pymod_nonneg x _ hs)] at hlt
    refine ⟨⌊x / grid_spacing⌋, ?_, ?_⟩
    · have h1 : (⌊x / grid_spacing⌋ : ℚ) ≤ x / grid_spacing := Int.floor_le _
      have hba : x / grid_spacing * grid_spacing = x := by field_simp
      nlinarith [mul_le_mul_of_nonneg_right h1 hs.le]
    · unfold pymod at hlt
      nlinarith
  · rintro ⟨k, hk1, hk2⟩
    have hk : ⌊x / grid_spacing⌋ = k := by
      rw [Int.floor_eq_iff]
      constructor
      · rw [le_div_iff₀ hs]
        linarith
      · rw [div_lt_iff₀ hs]
        nlinarith
    rw [abs_of_nonneg (pymod_nonneg x _ hs)]
    unfold pymod
    rw [hk]
    nlinarith

/-- C4 amended: a pixel is flagged as on a grid line iff its moved
longitude or its latitude lies in the ONE-SIDED band
`[k * grid_spacing, k * grid_spacing + 0.015)` for some integer `k`:
values within tolerance strictly below a multiple are not flagged. -/
theorem grid_flag_iff (f t w h i j : ℕ) :
    (lon_grid (lon_moved f t w i) || lat_grid (lat h j)) = true ↔
    (∃ k : ℤ, (k : ℚ) * grid_spacing ≤ lon_moved f t w i ∧
      lon_moved f t w i < (k : ℚ) * grid_spacing + 15 / 1000) ∨
    (∃ k : ℤ, (k : ℚ) * grid_spacing ≤ lat h j ∧
      lat h j < (k : ℚ) * grid_spacing + 15 / 1000) := by
  rw [Bool.or_eq_true, lon_grid, lat_grid, decide_eq_true_eq,
    decide_eq_true_eq, band_iff, band_iff]

end Video360

namespace SegmentAPI

/-- A 1×1 black image, for concrete witnesses. -/
def blackImg : Img := ⟨1, 1, fun _ _ => ⟨0, 0, 0⟩⟩

/-- The everywhere-false mask, used as the `getD` default. -/
def noMask : Mask := fun _ _ => false

/-- C8 counterexample: a request body lacking BOTH keys lacks `prompt`,
but the endpoint checks `image_base64` first and answers with the
image error message, not the prompt error message. -/
theorem segment_missing_prompt_counterexample :
    segment okDecode noDetector noPredictor ⟨none, none, none⟩ =
      .err ("Missing 'image_base64' field") 400 ∧
    SegResponse.err ("Missing 'image_base64' field") 400 ≠
      SegResponse.err ("Missing 'prompt' field") 400 := by
  refine ⟨rfl, fun hcontra => ?_⟩
  injection hcontra with h1 _
  exact absurd h1 (by decide)

/-- C8 amended: for every request body that CONTAINS `image_base64` but
lacks `prompt`, and for every model stack and decoder, the endpoint
answers exactly with the prompt error and status 400 — in particular the
response never depends on the detector, the predictor or the decoder, so
the models are not invoked. -/
theorem segment_missing_prompt (decode : String → Except String Img)
    (detector : Img → String → ℚ → Detections) (predictor : Img → Box → Mask)
    (data : SegRequest) (hi : data.image_base64.isSome = true)
    (hp : data.prompt = none) :
    segment decode detector predictor data =
      .err ("Missing 'prompt' field") 400 := by
  obtain ⟨ib, pr, th⟩ := data
  simp only at hi hp
  subst hp
  cases ib with
  | none => simp at hi
  | some s => rfl

/-- Witness for C8 at a concrete request holding only `image_base64`. -/
theorem segment_missing_prompt_witness :
    segment okDecode noDetector noPredictor ⟨some ("abc"), none, none⟩ =
      .err ("Missing 'prompt' field") 400 :=
  segment_missing_prompt okDecode noDetector noPredictor
    ⟨some ("abc"), none, none⟩ rfl rfl

/-- C9: when the detector returns no boxes, the response reports
`num_objects = 0` and carries neither the masked cutout nor the
visualization (both keys are absent, not null). -/
theorem segment_zero_objects (detector : Img → String → ℚ → Detections)
    (predictor : Img → Box → Mask) (img : Img) (tp : String) (thr : ℚ)
    (rv : Bool) (hdet : (detector img (format_prompt tp) thr).boxes = []) :
    (segment_objects_internal detector predictor img tp thr rv).num_objects
        = 0 ∧
    (segment_objects_internal detector predictor img tp thr rv).masked_rgba
        = none ∧
    (segment_objects_internal detector predictor img tp thr
      rv).visualization_present = false := by
  unfold segment_objects_internal
  simp only [hdet, List.map_nil]
  exact ⟨trivial, trivial, trivial⟩

/-- Witness for C9 with a detector that finds nothing. -/
theorem segment_zero_objects_witness :
    (segment_objects_internal noDetector noPredictor blackImg ("mushroom")
      (3 / 10) true).num_objects = 0 :=
  (segment_zero_objects noDetector noPredictor blackImg ("mushroom")
    (3 / 10) true rfl).1

/-- C10: with at least two detections, the cutout is built from the
first mask alone: a pixel inside the mask of a later detection but
outside the first mask is fully transparent in `masked_rgba`, while
`num_objects` still reports every detection. -/
theorem segment_first_mask_only (detector : Img → String → ℚ → Detections)
    (predictor : Img → Box → Mask) (img : Img) (tp : String) (thr : ℚ)
    (rv : Bool) (y x k : ℕ)
    (h2 : 2 ≤
      ((detector img (format_prompt tp) thr).boxes.map (predictor img)).length)
    (_hk1 : 1 ≤ k)
    (_hkm : (((detector img (format_prompt tp) thr).boxes.map
      (predictor img)).getD k noMask) y x = true)
    (h0 : (((detector img (format_prompt tp) thr).boxes.map
      (predictor img)).getD 0 noMask) y x = false) :
    (segment_objects_internal detector predictor img tp thr rv).num_objects =
      ((detector img (format_prompt tp) thr).boxes.map (predictor img)).length
    ∧ ∃ m, (segment_objects_internal detector predictor img tp thr
        rv).masked_rgba = some m ∧ m y x = ⟨0, 0, 0, 0⟩ := by
  unfold segment_objects_internal
  dsimp only
  cases hm : (detector img (format_prompt tp) thr).boxes.map (predictor img)
    with
  | nil => rw [hm] at h2; simp at h2
  | cons m0 rest =>
      rw [hm] at h0
      simp only [List.getD_cons_zero] at h0
      dsimp only
      exact ⟨rfl, _, rfl, by simp only [h0, Bool.false_eq_true, if_false]⟩

/-- Witness for C10: two detected boxes, where the pixel (0, 0) lies in
the second mask only, and comes out fully transparent. -/
theorem segment_first_mask_only_witness :
    (segment_objects_internal twoBoxDetector lastCoordPredictor blackImg
      ("mushroom") (3 / 10) true).num_objects =
      ((twoBoxDetector blackImg (format_prompt ("mushroom")) (3 / 10)).boxes.map
        (lastCoordPredictor blackImg)).length ∧
    ∃ m, (segment_objects_internal twoBoxDetector lastCoordPredictor blackImg
      ("mushroom") (3 / 10) true).masked_rgba = some m ∧
      m 0 0 = ⟨0, 0, 0, 0⟩ :=
  segment_first_mask_only twoBoxDetector lastCoordPredictor blackImg
    ("mushroom") (3 / 10) true 0 0 1
    (by norm_num [twoBoxDetector])
    (by norm_num)
    (by norm_num [twoBoxDetector, lastCoordPredictor])
    (by norm_num [twoBoxDetector, lastCoordPredictor])

end SegmentAPI
